import Mathlib

/-!
Shallow embedding of the UnoGarageOpener sketch (GarageOpener.ino), which
contains two revisions of the same controller:
  * revision 1: commands are refresh / trigger (single unconditional button);
  * revision 2: commands are refresh / open / close (direction-aware).
Pure lookups become Lean functions; the C linear scans over the
sentinel-terminated tables become structural recursion over lists; a scan
that can fall off the end of a non-void C function (undefined behaviour)
returns Option.none.  The mutable globals (current_line, door_status,
last_door_trigger) become an explicit machine record, and the actuator
digitalWrite pulse is counted in a pulse_count field.
-/

/-- Door status IDs, `enum door_status_id` (identical in both revisions). -/
inductive door_status_id where
  | open_status
  | opening_status
  | closed_status
  | closing_status
  | stuck_status
  | cancelled_status
  | error_status
deriving DecidableEq, Repr, Fintype

open door_status_id

/-- Revision 1 `struct door_status_table_entry`. -/
structure door_status_table_entry1 where
  id : door_status_id
  open_switch_value : Nat
  closed_switch_value : Nat
  next_id : door_status_id
  description : String
deriving DecidableEq, Repr

/-- Revision 1 `door_status_table` (the `{ NULL }` sentinel becomes list end). -/
def door_status_table1 : List door_status_table_entry1 :=
  [ ⟨open_status,      1, 0, closing_status,   "open"⟩,
    ⟨closed_status,    0, 1, opening_status,   "closed"⟩,
    ⟨error_status,     1, 1, error_status,     "reed_error"⟩,
    ⟨stuck_status,     0, 0, stuck_status,     "stuck"⟩,
    ⟨opening_status,   0, 0, cancelled_status, "opening"⟩,
    ⟨cancelled_status, 0, 0, closing_status,   "cancelled"⟩,
    ⟨closing_status,   0, 0, opening_status,   "closing"⟩ ]

/-- Revision 2 `enum command_id`. -/
inductive command_id2 where
  | refresh_command
  | open_command
  | close_command
  | invalid_command
deriving DecidableEq, Repr, Fintype

open command_id2

/-- Revision 2 `struct door_status_table_entry` (two next fields). -/
structure door_status_table_entry2 where
  id : door_status_id
  open_switch_value : Nat
  closed_switch_value : Nat
  next_id_open : door_status_id
  next_id_close : door_status_id
  description : String
deriving DecidableEq, Repr

/-- Revision 2 `door_status_table` (note: no `cancelled_status` row). -/
def door_status_table2 : List door_status_table_entry2 :=
  [ ⟨open_status,    1, 0, open_status,    closing_status, "open"⟩,
    ⟨closed_status,  0, 1, opening_status, closed_status,  "closed"⟩,
    ⟨error_status,   1, 1, error_status,   error_status,   "reed_error"⟩,
    ⟨stuck_status,   0, 0, stuck_status,   stuck_status,   "stuck"⟩,
    ⟨opening_status, 0, 0, opening_status, opening_status, "opening"⟩,
    ⟨closing_status, 0, 0, opening_status, closing_status, "closing"⟩ ]

/-- The scan inside revision 1 `get_door_status`: first row whose switch pair
matches the sampled pair; `none` models falling off the end of the table. -/
def find_status_entry1 (door_open door_closed : Nat) :
    List door_status_table_entry1 → Option door_status_id
  | [] => none
  | e :: rest =>
    if door_open = e.open_switch_value ∧ door_closed = e.closed_switch_value then
      some e.id
    else
      find_status_entry1 door_open door_closed rest

/-- Revision 1 `get_door_status`, with the sampled switch values and the
current `door_status` global as arguments (`!door_open` in C is
`door_open = 0`). -/
def get_door_status1 (door_open door_closed : Nat)
    (door_status : door_status_id) : Option door_status_id :=
  if door_status = cancelled_status ∧ door_open = 0 ∧ door_closed = 0 then
    some cancelled_status
  else
    find_status_entry1 door_open door_closed door_status_table1

/-- The scan inside revision 2 `get_door_status` (same logic over table 2). -/
def find_status_entry2 (door_open door_closed : Nat) :
    List door_status_table_entry2 → Option door_status_id
  | [] => none
  | e :: rest =>
    if door_open = e.open_switch_value ∧ door_closed = e.closed_switch_value then
      some e.id
    else
      find_status_entry2 door_open door_closed rest

/-- Revision 2 `get_door_status` resolution (the timer reset it also performs
is modelled at the call site, in `refresh2`). -/
def get_door_status2 (door_open door_closed : Nat)
    (door_status : door_status_id) : Option door_status_id :=
  if door_status = cancelled_status ∧ door_open = 0 ∧ door_closed = 0 then
    some cancelled_status
  else
    find_status_entry2 door_open door_closed door_status_table2

/-- Revision 1 `door_status_string`: linear scan by id for the description. -/
def door_status_string1 (door_status : door_status_id) : Option String :=
  (door_status_table1.find? fun e => door_status = e.id).map fun e => e.description

/-- Revision 2 `door_status_string`. -/
def door_status_string2 (door_status : door_status_id) : Option String :=
  (door_status_table2.find? fun e => door_status = e.id).map fun e => e.description

/-- Revision 1 `next_door_status`: scan by id, return the row's `next_id`;
`none` models falling off the end. -/
def next_door_status1 (door_status : door_status_id) : Option door_status_id :=
  (door_status_table1.find? fun e => door_status = e.id).map fun e => e.next_id

/-- The loop body of revision 2 `next_door_status`: on an id match the row's
next field is returned only for the open/close commands, otherwise the loop
keeps scanning. -/
def next_door_status2_scan (command : command_id2) (door_status : door_status_id) :
    List door_status_table_entry2 → Option door_status_id
  | [] => none
  | e :: rest =>
    if door_status = e.id then
      if command = open_command then some e.next_id_open
      else if command = close_command then some e.next_id_close
      else next_door_status2_scan command door_status rest
    else next_door_status2_scan command door_status rest

/-- Revision 2 `next_door_status`: the scan with the explicit
`return door_status` fallback after the loop. -/
def next_door_status2 (command : command_id2) (door_status : door_status_id) :
    door_status_id :=
  (next_door_status2_scan command door_status door_status_table2).getD door_status

/-- Scan of table 2 by status id alone (which row, if any, a status owns). -/
def find_id_entry2 (door_status : door_status_id) :
    List door_status_table_entry2 → Option door_status_table_entry2
  | [] => none
  | e :: rest => if door_status = e.id then some e else find_id_entry2 door_status rest

/-- Revision 1 machine state: the mutable globals of the sketch that the core
touches, plus a count of actuator pulses (each digitalWrite HIGH/LOW pair). -/
structure Machine1 where
  current_line : List Char
  door_status : door_status_id
  last_door_trigger : Nat
  pulse_count : Nat
deriving DecidableEq, Repr

/-- Revision 2 machine state (same globals). -/
structure Machine2 where
  current_line : List Char
  door_status : door_status_id
  last_door_trigger : Nat
  pulse_count : Nat
deriving DecidableEq, Repr

/-- Revision 1 `trigger_door` at time `now`: refuse when stuck or faulted,
otherwise pulse, start the move timer and take the table's next status. -/
def trigger_door1 (now : Nat) (st : Machine1) : Option Machine1 :=
  if st.door_status = stuck_status ∨ st.door_status = error_status then
    some st
  else
    (next_door_status1 st.door_status).map fun nxt =>
      { st with pulse_count := st.pulse_count + 1,
                last_door_trigger := now,
                door_status := nxt }

/-- Revision 1 refresh action `door_status = get_door_status()` with sampled
switch values `o`, `c` (revision 1 does not touch the timer here). -/
def refresh1 (o c : Nat) (st : Machine1) : Option Machine1 :=
  (get_door_status1 o c st.door_status).map fun s => { st with door_status := s }

/-- Revision 2 `trigger_door(command)` at time `now`: set the timer, take the
table's next status, and pulse only if the status actually changed. -/
def trigger_door2 (now : Nat) (command : command_id2) (st : Machine2) : Machine2 :=
  let current_status := st.door_status
  let st1 : Machine2 :=
    { st with last_door_trigger := now,
              door_status := next_door_status2 command st.door_status }
  if current_status = st1.door_status then st1
  else { st1 with pulse_count := st1.pulse_count + 1 }

/-- Revision 2 refresh action `door_status = get_door_status()`: revision 2's
`get_door_status` also resets `last_door_trigger` to 0. -/
def refresh2 (o c : Nat) (st : Machine2) : Option Machine2 :=
  (get_door_status2 o c st.door_status).map fun s =>
    { st with last_door_trigger := 0, door_status := s }

/-- The `current_line` update both revisions perform on each incoming
character: newline clears the buffer, carriage return is dropped, anything
else is appended. -/
def update_line (line : List Char) (ch : Char) : List Char :=
  if ch = '\n' then []
  else if ch ≠ '\r' then line ++ [ch]
  else line

/-- The `current_line` buffer after feeding a character list. -/
def line_after (line : List Char) : List Char → List Char
  | [] => line
  | ch :: rest => line_after (update_line line ch) rest

/-- Arduino `String.endsWith`. -/
def ends_with (line sfx : List Char) : Bool :=
  List.isSuffixOf sfx line

def url_trigger : List Char := "GET /trigger".toList

def url_refresh : List Char := "GET /refresh".toList

def url_open : List Char := "GET /open".toList

def url_close : List Char := "GET /close".toList

/-- Revision 1 `proccess_command(c)`: update the line buffer (the empty-line
newline branch only writes the HTTP response), then act if the buffer now
ends with a recognized URL. Sampled switch values `o`, `c` and the clock
`now` stand in for the hardware reads. -/
def proccess_command1 (o c now : Nat) (ch : Char) (st : Machine1) : Option Machine1 :=
  let st1 : Machine1 := { st with current_line := update_line st.current_line ch }
  if ends_with st1.current_line url_trigger then trigger_door1 now st1
  else if ends_with st1.current_line url_refresh then refresh1 o c st1
  else some st1

/-- Revision 2 `proccess_command(c)`: act first on the buffer as it stands,
then update the line buffer with the incoming character. -/
def proccess_command2 (o c now : Nat) (ch : Char) (st : Machine2) : Option Machine2 :=
  (if ends_with st.current_line url_open then some (trigger_door2 now open_command st)
   else if ends_with st.current_line url_close then some (trigger_door2 now close_command st)
   else if ends_with st.current_line url_refresh then refresh2 o c st
   else some st).map fun st1 =>
    { st1 with current_line := update_line st1.current_line ch }

/-- Feed a character list through revision 1 command processing. -/
def run1 (o c now : Nat) : Machine1 → List Char → Option Machine1
  | st, [] => some st
  | st, ch :: rest =>
    match proccess_command1 o c now ch st with
    | some st1 => run1 o c now st1 rest
    | none => none

/-- Feed a character list through revision 2 command processing. -/
def run2 (o c now : Nat) : Machine2 → List Char → Option Machine2
  | st, [] => some st
  | st, ch :: rest =>
    match proccess_command2 o c now ch st with
    | some st1 => run2 o c now st1 rest
    | none => none

/-- Whether any revision 1 URL check fires while feeding the characters
(checked on the buffer after each update, as the code does). -/
def hits1 (line : List Char) : List Char → Bool
  | [] => false
  | ch :: rest =>
    ends_with (update_line line ch) url_trigger
    || ends_with (update_line line ch) url_refresh
    || hits1 (update_line line ch) rest

/-- Whether any revision 2 URL check fires while feeding the characters
(checked on the buffer before each update, as the code does). -/
def hits2 (line : List Char) : List Char → Bool
  | [] => false
  | ch :: rest =>
    ends_with line url_open || ends_with line url_close || ends_with line url_refresh
    || hits2 (update_line line ch) rest

/-- Revision 1 trigger orbit: the door status after `n` consecutive triggers
starting from `open_status`, each taking the table's `next_id`. -/
def trigger_orbit1 : Nat → Option door_status_id
  | 0 => some open_status
  | n + 1 => (trigger_orbit1 n).bind next_door_status1

/-- A core operation of revision 2 acting on the door status: a refresh with
the given sampled switch bits, or an open or close command. -/
inductive door_op2 where
  | refresh_op (o c : Bool)
  | open_op
  | close_op
deriving DecidableEq, Repr, Fintype

/-- The effect of one revision 2 operation on the door status. -/
def door_op2_step : door_op2 → door_status_id → Option door_status_id
  | .refresh_op o c, s => get_door_status2 (cond o 1 0) (cond c 1 0) s
  | .open_op, s => some (next_door_status2 open_command s)
  | .close_op, s => some (next_door_status2 close_command s)

/-- The door status after a sequence of revision 2 operations. -/
def run_ops2 : List door_op2 → door_status_id → Option door_status_id
  | [], s => some s
  | op :: rest, s =>
    match door_op2_step op s with
    | some s1 => run_ops2 rest s1
    | none => none

/-- Claim C1: for every switch pair other than (0,0) the resolver is
determined by the pair alone — (1,0) yields Open, (0,1) yields Closed,
(1,1) yields Error — and for (0,0) with a non-Cancelled previous status it
returns the first matching in-motion row of the fixed scan order, the Stuck
row; in both revisions. -/
theorem resolver_pair_determined (s : door_status_id) :
    (get_door_status1 1 0 s = some open_status ∧
      get_door_status2 1 0 s = some open_status) ∧
    (get_door_status1 0 1 s = some closed_status ∧
      get_door_status2 0 1 s = some closed_status) ∧
    (get_door_status1 1 1 s = some error_status ∧
      get_door_status2 1 1 s = some error_status) ∧
    (s ≠ cancelled_status →
      get_door_status1 0 0 s = some stuck_status ∧
      get_door_status2 0 0 s = some stuck_status) := by
  revert s
  decide

/-- Witness for C1 at a concrete non-Cancelled previous status. -/
theorem resolver_pair_determined_witness :
    (open_status : door_status_id) ≠ cancelled_status ∧
    get_door_status1 0 0 open_status = some stuck_status ∧
    get_door_status2 0 0 open_status = some stuck_status :=
  ⟨by decide,
   ((resolver_pair_determined open_status).2.2.2 (by decide)).1,
   ((resolver_pair_determined open_status).2.2.2 (by decide)).2⟩

/-- Claim C2: with previous status Cancelled and both switches reading 0,
the resolver returns Cancelled unchanged, in both revisions. -/
theorem cancelled_disambiguation :
    get_door_status1 0 0 cancelled_status = some cancelled_status ∧
    get_door_status2 0 0 cancelled_status = some cancelled_status := by
  decide

/-- Claim C3: revision 1 `trigger_door` from Stuck or Error leaves the whole
machine state unchanged — no status change, no pulse, no timer start. -/
theorem trigger1_fault_guard (now : Nat) (st : Machine1)
    (h : st.door_status = stuck_status ∨ st.door_status = error_status) :
    trigger_door1 now st = some st := by
  unfold trigger_door1
  rw [if_pos h]

/-- Witness for C3 at a concrete stuck machine. -/
theorem trigger1_fault_guard_witness :
    trigger_door1 3 (⟨[], stuck_status, 5, 2⟩ : Machine1) =
      some (⟨[], stuck_status, 5, 2⟩ : Machine1) :=
  trigger1_fault_guard 3 ⟨[], stuck_status, 5, 2⟩ (Or.inl rfl)

/-- Claim C5: revision 1 trigger schedule from Open visits Closing, Opening,
Cancelled, Closing, … (period 3 after the first step), with Error and Stuck
self-looping in the table. -/
theorem trigger1_cycle :
    trigger_orbit1 1 = some closing_status ∧
    trigger_orbit1 2 = some opening_status ∧
    trigger_orbit1 3 = some cancelled_status ∧
    trigger_orbit1 4 = some closing_status ∧
    (∀ n : Nat, trigger_orbit1 (n + 4) = trigger_orbit1 (n + 1)) ∧
    next_door_status1 error_status = some error_status ∧
    next_door_status1 stuck_status = some stuck_status := by
  refine ⟨by decide, by decide, by decide, by decide, ?_, by decide, by decide⟩
  intro n
  induction n with
  | zero => decide
  | succ k ih =>
    have e1 : k + 1 + 4 = (k + 4) + 1 := by omega
    rw [e1]
    show (trigger_orbit1 (k + 4)).bind next_door_status1 =
      (trigger_orbit1 (k + 1)).bind next_door_status1
    rw [ih]

/-- Claim C4: revision 2 `trigger_door` sets the status to the table's
next-on-open / next-on-close entry (where the status has a table row), sets
the move timer, and pulses the actuator exactly when the new status differs
from the previous one; in particular Open from Open is a silent no-op,
Close from Open pulses into Closing, and Open from Closing pulses into
Opening. -/
theorem trigger2_contract (now : Nat) (st : Machine2) (command : command_id2)
    (h : command = open_command ∨ command = close_command) :
    (trigger_door2 now command st).door_status =
      next_door_status2 command st.door_status ∧
    (trigger_door2 now command st).last_door_trigger = now ∧
    ((trigger_door2 now command st).pulse_count = st.pulse_count + 1 ↔
      next_door_status2 command st.door_status ≠ st.door_status) ∧
    ((trigger_door2 now command st).pulse_count = st.pulse_count ↔
      next_door_status2 command st.door_status = st.door_status) ∧
    (∀ e, find_id_entry2 st.door_status door_status_table2 = some e →
      next_door_status2 open_command st.door_status = e.next_id_open ∧
      next_door_status2 close_command st.door_status = e.next_id_close) ∧
    trigger_door2 now open_command { st with door_status := open_status } =
      { st with door_status := open_status, last_door_trigger := now } ∧
    (trigger_door2 now close_command { st with door_status := open_status }).door_status =
      closing_status ∧
    (trigger_door2 now close_command { st with door_status := open_status }).pulse_count =
      st.pulse_count + 1 ∧
    (trigger_door2 now open_command { st with door_status := closing_status }).door_status =
      opening_status ∧
    (trigger_door2 now open_command { st with door_status := closing_status }).pulse_count =
      st.pulse_count + 1 := by
  obtain ⟨line, s, t, p⟩ := st
  rcases h with rfl | rfl <;> fin_cases s <;>
    simp [trigger_door2, next_door_status2, next_door_status2_scan,
      door_status_table2, find_id_entry2]

/-- Witness for C4: an Open command while the door is Open. -/
theorem trigger2_contract_witness :
    (trigger_door2 1 open_command (⟨[], open_status, 0, 0⟩ : Machine2)).door_status =
      next_door_status2 open_command open_status :=
  (trigger2_contract 1 ⟨[], open_status, 0, 0⟩ open_command (Or.inl rfl)).1

/-- If no revision 1 URL check fires along the way, command processing only
accumulates the line buffer. -/
theorem run1_no_hit (o c now : Nat) (cs : List Char) :
    ∀ st : Machine1, hits1 st.current_line cs = false →
      run1 o c now st cs =
        some { st with current_line := line_after st.current_line cs } := by
  induction cs with
  | nil =>
    intro st h
    rfl
  | cons ch rest ih =>
    intro st h
    obtain ⟨line, ds, t, p⟩ := st
    simp only [hits1, Bool.or_eq_false_iff] at h
    obtain ⟨⟨h1, h2⟩, h3⟩ := h
    have hp : proccess_command1 o c now ch ⟨line, ds, t, p⟩ =
        some ⟨update_line line ch, ds, t, p⟩ := by
      simp [proccess_command1, h1, h2]
    simp only [run1, hp]
    exact ih ⟨update_line line ch, ds, t, p⟩ h3

/-- If no revision 2 URL check fires along the way, command processing only
accumulates the line buffer. -/
theorem run2_no_hit (o c now : Nat) (cs : List Char) :
    ∀ st : Machine2, hits2 st.current_line cs = false →
      run2 o c now st cs =
        some { st with current_line := line_after st.current_line cs } := by
  induction cs with
  | nil =>
    intro st h
    rfl
  | cons ch rest ih =>
    intro st h
    obtain ⟨line, ds, t, p⟩ := st
    simp only [hits2, Bool.or_eq_false_iff] at h
    obtain ⟨⟨⟨h1, h2⟩, h3⟩, h4⟩ := h
    have hp : proccess_command2 o c now ch ⟨line, ds, t, p⟩ =
        some ⟨update_line line ch, ds, t, p⟩ := by
      simp [proccess_command2, h1, h2, h3]
    simp only [run2, hp]
    exact ih ⟨update_line line ch, ds, t, p⟩ h4

/-- Claim C6: a character stream in which no recognized command URL ever
completes changes nothing but the line buffer — door status, move timer and
pulse count are untouched — in both revisions. -/
theorem invalid_command_noop (o c now : Nat) (st1 : Machine1) (st2 : Machine2)
    (cs : List Char) :
    (hits1 st1.current_line cs = false →
      run1 o c now st1 cs =
        some { st1 with current_line := line_after st1.current_line cs }) ∧
    (hits2 st2.current_line cs = false →
      run2 o c now st2 cs =
        some { st2 with current_line := line_after st2.current_line cs }) :=
  ⟨run1_no_hit o c now cs st1, run2_no_hit o c now cs st2⟩

/-- Witness for C6: an unrecognized request is a complete no-op apart from
the line buffer. -/
theorem invalid_command_noop_witness :
    run1 1 0 5 (⟨[], open_status, 0, 0⟩ : Machine1) "PUT /x\n".toList =
      some ⟨line_after [] "PUT /x\n".toList, open_status, 0, 0⟩ ∧
    run2 1 0 5 (⟨[], open_status, 0, 0⟩ : Machine2) "PUT /x\n".toList =
      some ⟨line_after [] "PUT /x\n".toList, open_status, 0, 0⟩ :=
  ⟨(invalid_command_noop 1 0 5 ⟨[], open_status, 0, 0⟩ ⟨[], open_status, 0, 0⟩
      "PUT /x\n".toList).1 (by decide),
   (invalid_command_noop 1 0 5 ⟨[], open_status, 0, 0⟩ ⟨[], open_status, 0, 0⟩
      "PUT /x\n".toList).2 (by decide)⟩

/-- Resolving again from a just-resolved status with the same switch pair
returns the same status (revision 1). -/
theorem get_door_status1_idem (o c : Nat) (ho : o ≤ 1) (hc : c ≤ 1) :
    ∀ s s' : door_status_id, get_door_status1 o c s = some s' →
      get_door_status1 o c s' = some s' := by
  interval_cases o <;> interval_cases c <;> decide

/-- Resolving again from a just-resolved status with the same switch pair
returns the same status (revision 2). -/
theorem get_door_status2_idem (o c : Nat) (ho : o ≤ 1) (hc : c ≤ 1) :
    ∀ s s' : door_status_id, get_door_status2 o c s = some s' →
      get_door_status2 o c s' = some s' := by
  interval_cases o <;> interval_cases c <;> decide

/-- Claim C7: refresh never pulses the actuator, and the resolver is
idempotent under an unchanged switch pair, so repeated refresh commands
change nothing after the first; in both revisions. -/
theorem refresh_idempotent (o c : Nat) (s : door_status_id)
    (st1 st1' : Machine1) (st2 st2' : Machine2) (ho : o ≤ 1) (hc : c ≤ 1) :
    (get_door_status1 o c s).bind (get_door_status1 o c) =
      get_door_status1 o c s ∧
    (get_door_status2 o c s).bind (get_door_status2 o c) =
      get_door_status2 o c s ∧
    (refresh1 o c st1 = some st1' →
      st1'.pulse_count = st1.pulse_count ∧
      st1'.last_door_trigger = st1.last_door_trigger ∧
      st1'.current_line = st1.current_line ∧
      refresh1 o c st1' = some st1') ∧
    (refresh2 o c st2 = some st2' →
      st2'.pulse_count = st2.pulse_count ∧
      st2'.current_line = st2.current_line ∧
      refresh2 o c st2' = some st2') := by
  refine ⟨?_, ?_, ?_, ?_⟩
  · cases hg : get_door_status1 o c s with
    | none => rfl
    | some s0 =>
      show get_door_status1 o c s0 = some s0
      exact get_door_status1_idem o c ho hc s s0 hg
  · cases hg : get_door_status2 o c s with
    | none => rfl
    | some s0 =>
      show get_door_status2 o c s0 = some s0
      exact get_door_status2_idem o c ho hc s s0 hg
  · intro h
    unfold refresh1 at h ⊢
    cases hg : get_door_status1 o c st1.door_status with
    | none => rw [hg] at h; exact absurd h (by simp)
    | some s0 =>
      rw [hg] at h
      simp only [Option.map_some'] at h
      injection h with h
      subst h
      refine ⟨rfl, rfl, rfl, ?_⟩
      simp [get_door_status1_idem o c ho hc _ _ hg]
  · intro h
    unfold refresh2 at h ⊢
    cases hg : get_door_status2 o c st2.door_status with
    | none => rw [hg] at h; exact absurd h (by simp)
    | some s0 =>
      rw [hg] at h
      simp only [Option.map_some'] at h
      injection h with h
      subst h
      refine ⟨rfl, rfl, ?_⟩
      simp [get_door_status2_idem o c ho hc _ _ hg]

/-- Witness for C7: one refresh from Open with both switches low lands on
Stuck without pulsing, and a second refresh keeps it there. -/
theorem refresh_idempotent_witness :
    refresh1 0 0 (⟨[], stuck_status, 3, 2⟩ : Machine1) =
      some (⟨[], stuck_status, 3, 2⟩ : Machine1) :=
  ((refresh_idempotent 0 0 open_status
      ⟨[], open_status, 3, 2⟩ ⟨[], stuck_status, 3, 2⟩
      ⟨[], open_status, 0, 0⟩ ⟨[], stuck_status, 0, 0⟩
      (by decide) (by decide)).2.2.1 (by decide)).2.2.2

/-- Counterexample to C8: in revision 2 the Cancelled status has no table
row, so `door_status_string` falls off the end of the table (undefined
return in the C source, `none` in the model). -/
theorem description_lookup_v2_gap :
    door_status_string2 cancelled_status = none := by
  decide

/-- Claim C8 as amended: in revision 1 every one of the seven statuses has
exactly one non-empty description and no two statuses share one; in
revision 2 the same holds for the six statuses other than Cancelled, which
has no table row at all, so its lookup returns nothing. -/
theorem description_lookup_amended (s t : door_status_id) :
    ((door_status_string1 s).isSome = true ∧
      (Option.getD (door_status_string1 s) "").length ≠ 0) ∧
    (door_status_string1 s = door_status_string1 t → s = t) ∧
    (s ≠ cancelled_status →
      (door_status_string2 s).isSome = true ∧
      (Option.getD (door_status_string2 s) "").length ≠ 0) ∧
    (s ≠ cancelled_status → t ≠ cancelled_status →
      door_status_string2 s = door_status_string2 t → s = t) ∧
    door_status_string2 cancelled_status = none := by
  revert s t
  decide

/-- Witness for the amended C8 at concrete statuses. -/
theorem description_lookup_amended_witness :
    (open_status : door_status_id) = open_status ∧
    (door_status_string2 open_status).isSome = true :=
  ⟨(description_lookup_amended open_status open_status).2.1 (by decide),
   ((description_lookup_amended open_status open_status).2.2.1 (by decide)).1⟩

/-- Counterexample to C9: in revision 2 a Close command while Opening does
not yield Cancelled — the table keeps the status at Opening. -/
theorem cancel_reach_v2_counterexample :
    next_door_status2 close_command opening_status = opening_status ∧
    next_door_status2 close_command opening_status ≠ cancelled_status := by
  decide

/-- Claim C9 as amended: there is no explicit cancel operation; in
revision 1 Cancelled is reached from a non-Cancelled status only through
the trigger table, exactly when the status is Opening, and never by the
resolver; in revision 2 no command and no resolution reaches Cancelled from
a non-Cancelled status at all (Close while Opening self-loops). -/
theorem cancel_reachability_amended (s : door_status_id)
    (command : command_id2) (o c : Nat) (ho : o ≤ 1) (hc : c ≤ 1) :
    (next_door_status1 s = some cancelled_status ↔ s = opening_status) ∧
    (s ≠ cancelled_status → get_door_status1 o c s ≠ some cancelled_status) ∧
    (s ≠ cancelled_status → next_door_status2 command s ≠ cancelled_status) ∧
    (s ≠ cancelled_status → get_door_status2 o c s ≠ some cancelled_status) := by
  interval_cases o <;> interval_cases c <;> revert s command <;> decide

/-- Witness for the amended C9 at concrete inputs. -/
theorem cancel_reachability_amended_witness :
    next_door_status2 open_command closing_status ≠ cancelled_status :=
  (cancel_reachability_amended closing_status open_command 0 0
      (by decide) (by decide)).2.2.1 (by decide)

/-- One revision 2 operation never moves a non-Cancelled status to
Cancelled. -/
theorem door_op2_step_ne_cancelled :
    ∀ (op : door_op2) (s s1 : door_status_id), s ≠ cancelled_status →
      door_op2_step op s = some s1 → s1 ≠ cancelled_status := by
  decide

/-- Claim C10 (revision 2 only): the table has no Cancelled row, no next
field of any row is Cancelled, Cancelled has no description, and every
sequence of refresh / open / close operations started from a non-Cancelled
status stays non-Cancelled. -/
theorem cancelled_unreachable_v2 (ops : List door_op2) (s s' : door_status_id) :
    find_id_entry2 cancelled_status door_status_table2 = none ∧
    (∀ e ∈ door_status_table2,
      e.next_id_open ≠ cancelled_status ∧ e.next_id_close ≠ cancelled_status) ∧
    door_status_string2 cancelled_status = none ∧
    (s ≠ cancelled_status → run_ops2 ops s = some s' → s' ≠ cancelled_status) := by
  refine ⟨by decide, by decide, by decide, ?_⟩
  induction ops generalizing s with
  | nil =>
    intro hs h
    injection h with h
    subst h
    exact hs
  | cons op rest ih =>
    intro hs h
    simp only [run_ops2] at h
    cases hstep : door_op2_step op s with
    | none => rw [hstep] at h; exact absurd h (by simp)
    | some s1 =>
      rw [hstep] at h
      exact ih s1 (door_op2_step_ne_cancelled op s s1 hs hstep) h

/-- Witness for C10: a short concrete operation sequence from Open. -/
theorem cancelled_unreachable_v2_witness :
    (stuck_status : door_status_id) ≠ cancelled_status :=
  (cancelled_unreachable_v2 [door_op2.open_op, door_op2.refresh_op false false]
      open_status stuck_status).2.2.2 (by decide) (by decide)
